import Mathlib

/-! Shallow embedding of the Monte-Carlo season-projection app (`app.py`).

Numeric arrays are `List ℚ`: the per-game statistics are small integers or
decimals, and every property at stake is ordered-field arithmetic, so ℚ
stands in for NumPy's int64/float64 without changing any claim.

NumPy's random generators are modelled as an infinite stream of raw draws
`stream : Nat → Nat` together with a cursor `pos : Nat`; one call
`choice(a, size=(S, G))` consumes the next `S * G` raw draws and reduces
each modulo `len(a)`, which is sampling with replacement from the valid
index range.  Both `rng.choice` (the `default_rng` generator of line 28)
and `np.random.choice` (the legacy global RandomState used on lines 43-45)
have this sampling semantics; each simulation function is given its own
stream and cursor, matching the two distinct generator objects of the
program.

Python exceptions raised by NumPy are modelled as an `Except` error:
`choice` raises `ValueError` on an empty population when samples are
requested, and `np.percentile` raises `IndexError` on an empty array. -/

/-- Errors raised (uncaught) by the NumPy calls the app makes. -/
inductive NpError where
  | valueError (msg : String)
  | indexError (msg : String)
deriving DecidableEq

/-- Module-level constant, line 11: `NUM_SIMULATIONS = 10_000`. -/
def NUM_SIMULATIONS : Nat := 10000

/-- The S×G matrix of population indices consumed by one
`choice(a, size=(S, G))` call: entry (s, g) is raw draw number
`pos + (s*G + g)` of the stream, reduced modulo the population size. -/
def choiceIndexMatrix (stream : Nat → Nat) (pos : Nat) (len S G : Nat) : List (List Nat) :=
  (List.range S).map fun s => (List.range G).map fun g => stream (pos + (s * G + g)) % len

/-- Row-wise `.sum(axis=1)` after replacing each drawn index by the
corresponding population value. -/
def matrixSums (src : List ℚ) (M : List (List Nat)) : List ℚ :=
  M.map fun row => (row.map fun i => src.getD i 0).sum

/-- `choice(src, size=(S, G)).sum(axis=1)` together with the advanced stream
cursor; raises `ValueError` exactly when the population is empty while
samples are requested. -/
def np_choice_sum (src : List ℚ) (S G : Nat) (stream : Nat → Nat) (pos : Nat) :
    Except NpError (List ℚ × Nat) :=
  if src.length = 0 ∧ S * G ≠ 0 then
    .error (.valueError "a cannot be empty unless no samples are taken")
  else
    .ok (matrixSums src (choiceIndexMatrix stream pos src.length S G), pos + S * G)

/-- Lines 33-38: Salah simulation.  Goals and assists are produced by two
separate `rng.choice` calls on the same generator; the assists call consumes
the raw draws that follow the goals call. -/
def monte_carlo_simulation_salah (goals assists : List ℚ) (num_games : Nat)
    (stream : Nat → Nat) (pos : Nat) :
    Except NpError ((List ℚ × List ℚ) × Nat) :=
  match np_choice_sum goals NUM_SIMULATIONS num_games stream pos with
  | .error e => .error e
  | .ok (goals_sim, pos1) =>
    match np_choice_sum assists NUM_SIMULATIONS num_games stream pos1 with
    | .error e => .error e
    | .ok (assists_sim, pos2) => .ok ((goals_sim, assists_sim), pos2)

/-- Lines 40-46: LeBron simulation.  Three separate `np.random.choice` calls
(PTS, then AST, then REB) on the legacy global generator; each summed row is
then divided by `num_games` (per-game averages, per the docstring). -/
def monte_carlo_simulation_lebron (PTS AST REB : List ℚ) (num_games : Nat)
    (stream : Nat → Nat) (pos : Nat) :
    Except NpError ((List ℚ × List ℚ × List ℚ) × Nat) :=
  match np_choice_sum PTS NUM_SIMULATIONS num_games stream pos with
  | .error e => .error e
  | .ok (pts_raw, pos1) =>
    match np_choice_sum AST NUM_SIMULATIONS num_games stream pos1 with
    | .error e => .error e
    | .ok (ast_raw, pos2) =>
      match np_choice_sum REB NUM_SIMULATIONS num_games stream pos2 with
      | .error e => .error e
      | .ok (reb_raw, pos3) =>
        .ok ((pts_raw.map (· / (num_games : ℚ)),
              ast_raw.map (· / (num_games : ℚ)),
              reb_raw.map (· / (num_games : ℚ))), pos3)

/-- The simulated array one statistic receives from its own `choice` call at
cursor `pos`: `NUM_SIMULATIONS` row sums over that call's index matrix. -/
def statSim (src : List ℚ) (G : Nat) (stream : Nat → Nat) (pos : Nat) : List ℚ :=
  matrixSums src (choiceIndexMatrix stream pos src.length NUM_SIMULATIONS G)

/-- The G values drawn for one simulated season starting at raw-draw cursor
`start`: value g is the source entry at index `stream (start + g) % len`. -/
def drawRow (src : List ℚ) (G : Nat) (stream : Nat → Nat) (start : Nat) : List ℚ :=
  (List.range G).map fun g => src.getD (stream (start + g) % src.length) 0

/-- `data.mean()`. -/
def np_mean (data : List ℚ) : ℚ := data.sum / (data.length : ℚ)

/-- Ascending sort, as used by `np.percentile`. -/
def sortData (data : List ℚ) : List ℚ := data.insertionSort (· ≤ ·)

/-- Linear interpolation between order statistics of the sorted array `s`
(of length `n`) at virtual index `h`. -/
def interpolate (s : List ℚ) (n : Nat) (h : ℚ) : ℚ :=
  s.getD (Int.toNat ⌊h⌋) 0 +
    (h - ((Int.toNat ⌊h⌋ : Nat) : ℚ)) *
      (s.getD (min (Int.toNat ⌊h⌋ + 1) (n - 1)) 0 - s.getD (Int.toNat ⌊h⌋) 0)

/-- `np.percentile(data, q)` with the default linear-interpolation method:
virtual index `q/100 * (n-1)` into the sorted data. -/
def np_percentile (data : List ℚ) (q : ℚ) : ℚ :=
  interpolate (sortData data) data.length (q / 100 * ((data.length : ℚ) - 1))

/-- The numeric content of the Plotly figure dict built by
`create_histogram` (lines 48-70): the raw data (`x`), the marker color, the
title, and the mean / 5th / 95th percentile shown in the title text. -/
structure Histogram where
  x : List ℚ
  color : String
  title : String
  mean : ℚ
  p5 : ℚ
  p95 : ℚ
deriving DecidableEq

/-- Lines 48-70: `create_histogram`.  On an empty array `data.mean()` is a
NaN with a warning, and `np.percentile(data, [5, 95])` then raises an
uncaught `IndexError`, so the call fails before returning a figure. -/
def create_histogram (data : List ℚ) (color : String) (title : String) :
    Except NpError Histogram :=
  if data = [] then
    .error (.indexError "cannot do a non-empty take from an empty axes")
  else
    .ok ⟨data, color, title, np_mean data, np_percentile data 5, np_percentile data 95⟩

/-- The numeric content of the `summary_text` string built by
`update_salah_output` (lines 207-214). -/
structure SalahSummary where
  num_games : Nat
  goals_mean : ℚ
  goals_5th : ℚ
  goals_95th : ℚ
deriving DecidableEq

/-- Lines 201-216: the Salah callback.  Runs the simulation, builds the two
figures, and reduces the goals array to the summary statistics quoted in the
text. -/
def update_salah_output (goals assists : List ℚ) (num_games : Nat)
    (stream : Nat → Nat) (pos : Nat) :
    Except NpError ((SalahSummary × Histogram × Histogram) × Nat) :=
  match monte_carlo_simulation_salah goals assists num_games stream pos with
  | .error e => .error e
  | .ok ((goals_data, assists_data), pos') =>
    match create_histogram goals_data "#C8102E" "Goals" with
    | .error e => .error e
    | .ok goals_fig =>
      match create_histogram assists_data "#00B2A9" "Assists" with
      | .error e => .error e
      | .ok assists_fig =>
        .ok ((⟨num_games, np_mean goals_data, np_percentile goals_data 5,
               np_percentile goals_data 95⟩, goals_fig, assists_fig), pos')

/-- The module-level globals the Salah simulation touches: the two loaded
source arrays (read only) and the state of the generator `rng` (advanced by
every call). -/
structure SalahState where
  goals : List ℚ
  assists : List ℚ
  rng_pos : Nat

/-- The module-level globals the LeBron simulation touches. -/
structure LebronState where
  PTS : List ℚ
  AST : List ℚ
  REB : List ℚ
  rng_pos : Nat

/-- `monte_carlo_simulation_salah` as a transition on the module globals:
the source arrays are only read, and the generator cursor is the single
global the call advances. -/
def monte_carlo_salah_run (num_games : Nat) (stream : Nat → Nat) (st : SalahState) :
    Except NpError ((List ℚ × List ℚ) × SalahState) :=
  (monte_carlo_simulation_salah st.goals st.assists num_games stream st.rng_pos).map
    fun r => (r.1, ⟨st.goals, st.assists, r.2⟩)

/-- `monte_carlo_simulation_lebron` as a transition on the module globals. -/
def monte_carlo_lebron_run (num_games : Nat) (stream : Nat → Nat) (st : LebronState) :
    Except NpError ((List ℚ × List ℚ × List ℚ) × LebronState) :=
  (monte_carlo_simulation_lebron st.PTS st.AST st.REB num_games stream st.rng_pos).map
    fun r => (r.1, ⟨st.PTS, st.AST, st.REB, r.2⟩)

/-- Smallest element of a list (0 for the empty list), `min(series)`. -/
def listMin : List ℚ → ℚ
  | [] => 0
  | a :: l => l.foldl min a

/-- Largest element of a list (0 for the empty list), `max(series)`. -/
def listMax : List ℚ → ℚ
  | [] => 0
  | a :: l => l.foldl max a

lemma np_choice_sum_ok (src : List ℚ) (S G : Nat) (stream : Nat → Nat) (pos : Nat)
    (h : src ≠ []) :
    np_choice_sum src S G stream pos =
      .ok (matrixSums src (choiceIndexMatrix stream pos src.length S G), pos + S * G) := by
  have hc : ¬(src.length = 0 ∧ S * G ≠ 0) := by
    intro hc
    exact h (List.length_eq_zero.mp hc.1)
  unfold np_choice_sum
  rw [if_neg hc]

lemma np_choice_sum_zero_games (src : List ℚ) (S : Nat) (stream : Nat → Nat) (pos : Nat) :
    np_choice_sum src S 0 stream pos = .ok (List.replicate S 0, pos) := by
  have hc : ¬(src.length = 0 ∧ S * 0 ≠ 0) := by simp
  unfold np_choice_sum
  rw [if_neg hc]
  simp [matrixSums, choiceIndexMatrix, List.map_const']

lemma np_choice_sum_empty (S G : Nat) (stream : Nat → Nat) (pos : Nat)
    (hSG : S * G ≠ 0) :
    np_choice_sum [] S G stream pos =
      .error (.valueError "a cannot be empty unless no samples are taken") := by
  unfold np_choice_sum
  rw [if_pos ⟨rfl, hSG⟩]

lemma monte_carlo_salah_eq (goals assists : List ℚ) (G : Nat) (stream : Nat → Nat)
    (pos : Nat) (hg : goals ≠ []) (ha : assists ≠ []) :
    monte_carlo_simulation_salah goals assists G stream pos =
      .ok ((statSim goals G stream pos,
            statSim assists G stream (pos + NUM_SIMULATIONS * G)),
           pos + NUM_SIMULATIONS * G + NUM_SIMULATIONS * G) := by
  unfold monte_carlo_simulation_salah
  simp only [np_choice_sum_ok _ _ _ _ _ hg, np_choice_sum_ok _ _ _ _ _ ha]
  rfl

lemma monte_carlo_lebron_eq (PTS AST REB : List ℚ) (G : Nat) (stream : Nat → Nat)
    (pos : Nat) (hp : PTS ≠ []) (ha : AST ≠ []) (hr : REB ≠ []) :
    monte_carlo_simulation_lebron PTS AST REB G stream pos =
      .ok (((statSim PTS G stream pos).map (· / (G : ℚ)),
            (statSim AST G stream (pos + NUM_SIMULATIONS * G)).map (· / (G : ℚ)),
            (statSim REB G stream
              (pos + NUM_SIMULATIONS * G + NUM_SIMULATIONS * G)).map (· / (G : ℚ))),
           pos + NUM_SIMULATIONS * G + NUM_SIMULATIONS * G + NUM_SIMULATIONS * G) := by
  unfold monte_carlo_simulation_lebron
  simp only [np_choice_sum_ok _ _ _ _ _ hp, np_choice_sum_ok _ _ _ _ _ ha,
    np_choice_sum_ok _ _ _ _ _ hr]
  rfl

lemma salah_zero_games (goals assists : List ℚ) (stream : Nat → Nat) (pos : Nat) :
    monte_carlo_simulation_salah goals assists 0 stream pos =
      .ok ((List.replicate NUM_SIMULATIONS 0, List.replicate NUM_SIMULATIONS 0), pos) := by
  unfold monte_carlo_simulation_salah
  simp only [np_choice_sum_zero_games]

lemma statSim_eq_map (src : List ℚ) (G : Nat) (stream : Nat → Nat) (pos : Nat) :
    statSim src G stream pos =
      (List.range NUM_SIMULATIONS).map fun s => (drawRow src G stream (pos + s * G)).sum := by
  unfold statSim matrixSums choiceIndexMatrix
  rw [List.map_map]
  refine List.map_congr_left ?_
  intro s _
  unfold drawRow
  simp only [Function.comp, List.map_map]
  refine congrArg List.sum (List.map_congr_left ?_)
  intro g _
  simp [Nat.add_assoc]

lemma statSim_length (src : List ℚ) (G : Nat) (stream : Nat → Nat) (pos : Nat) :
    (statSim src G stream pos).length = NUM_SIMULATIONS := by
  simp [statSim, matrixSums, choiceIndexMatrix]

lemma statSim_ne_nil (src : List ℚ) (G : Nat) (stream : Nat → Nat) (pos : Nat) :
    statSim src G stream pos ≠ [] := by
  intro h
  have hl := statSim_length src G stream pos
  rw [h] at hl
  simp [NUM_SIMULATIONS] at hl

lemma getD_map_range {α : Type} (f : Nat → α) (d : α) {n s : Nat} (h : s < n) :
    ((List.range n).map f).getD s d = f s := by
  rw [List.getD_eq_getElem?_getD, List.getElem?_map, List.getElem?_range h]
  rfl

lemma statSim_getD (src : List ℚ) (G : Nat) (stream : Nat → Nat) (pos : Nat)
    {s : Nat} (hs : s < NUM_SIMULATIONS) :
    (statSim src G stream pos).getD s 0 = (drawRow src G stream (pos + s * G)).sum := by
  rw [statSim_eq_map, getD_map_range _ _ hs]

lemma statSim_zero (src : List ℚ) (stream : Nat → Nat) (pos : Nat) :
    statSim src 0 stream pos = List.replicate NUM_SIMULATIONS 0 := by
  simp [statSim, matrixSums, choiceIndexMatrix, List.map_const']

lemma num_simulations_mul_ne_zero {G : Nat} (hG : G ≠ 0) : NUM_SIMULATIONS * G ≠ 0 := by
  simp [NUM_SIMULATIONS, hG]

lemma salah_cases (goals assists : List ℚ) (G : Nat) (stream : Nat → Nat) (pos : Nat) :
    monte_carlo_simulation_salah goals assists G stream pos =
        .error (.valueError "a cannot be empty unless no samples are taken") ∨
    monte_carlo_simulation_salah goals assists G stream pos =
      .ok ((statSim goals G stream pos,
            statSim assists G stream (pos + NUM_SIMULATIONS * G)),
           pos + NUM_SIMULATIONS * G + NUM_SIMULATIONS * G) := by
  by_cases hG : G = 0
  · right
    subst hG
    simp [salah_zero_games, statSim_zero]
  · have hSG := num_simulations_mul_ne_zero hG
    by_cases hg : goals = []
    · left
      subst hg
      unfold monte_carlo_simulation_salah
      simp only [np_choice_sum_empty _ _ _ _ hSG]
    · by_cases ha : assists = []
      · left
        subst ha
        unfold monte_carlo_simulation_salah
        simp only [np_choice_sum_ok _ _ _ _ _ hg, np_choice_sum_empty _ _ _ _ hSG]
      · right
        exact monte_carlo_salah_eq _ _ _ _ _ hg ha

lemma lebron_cases (PTS AST REB : List ℚ) (G : Nat) (stream : Nat → Nat) (pos : Nat) :
    monte_carlo_simulation_lebron PTS AST REB G stream pos =
        .error (.valueError "a cannot be empty unless no samples are taken") ∨
    monte_carlo_simulation_lebron PTS AST REB G stream pos =
      .ok (((statSim PTS G stream pos).map (· / (G : ℚ)),
            (statSim AST G stream (pos + NUM_SIMULATIONS * G)).map (· / (G : ℚ)),
            (statSim REB G stream
              (pos + NUM_SIMULATIONS * G + NUM_SIMULATIONS * G)).map (· / (G : ℚ))),
           pos + NUM_SIMULATIONS * G + NUM_SIMULATIONS * G + NUM_SIMULATIONS * G) := by
  by_cases hG : G = 0
  · right
    subst hG
    unfold monte_carlo_simulation_lebron
    simp only [np_choice_sum_zero_games]
    simp [statSim_zero]
  · have hSG := num_simulations_mul_ne_zero hG
    by_cases hp : PTS = []
    · left
      subst hp
      unfold monte_carlo_simulation_lebron
      simp only [np_choice_sum_empty _ _ _ _ hSG]
    · by_cases ha : AST = []
      · left
        subst ha
        unfold monte_carlo_simulation_lebron
        simp only [np_choice_sum_ok _ _ _ _ _ hp, np_choice_sum_empty _ _ _ _ hSG]
      · by_cases hr : REB = []
        · left
          subst hr
          unfold monte_carlo_simulation_lebron
          simp only [np_choice_sum_ok _ _ _ _ _ hp, np_choice_sum_ok _ _ _ _ _ ha,
            np_choice_sum_empty _ _ _ _ hSG]
        · right
          exact monte_carlo_lebron_eq _ _ _ _ _ _ hp ha hr

/-- C5 (amended): the sampler performs no validation of the game count and
defines no InvalidGameCount error.  For `num_games = 0` (the G < 1 case) it
succeeds, returning `NUM_SIMULATIONS` zero totals for each statistic, because
NumPy sums over an empty axis. -/
theorem C5_no_game_count_validation (goals assists : List ℚ) (stream : Nat → Nat)
    (pos : Nat) :
    monte_carlo_simulation_salah goals assists 0 stream pos =
      .ok ((List.replicate NUM_SIMULATIONS 0, List.replicate NUM_SIMULATIONS 0), pos) :=
  salah_zero_games goals assists stream pos

/-- C5 (counterexample): at the concrete input `num_games = 0 < 1` the claim
fails: the sampler does not fail fast with a discriminated InvalidGameCount
error, it performs the sampling and returns 10000 zero totals per statistic. -/
theorem C5_counterexample :
    monte_carlo_simulation_salah [1, 2] [3] 0 (fun n => n) 0 =
      .ok ((List.replicate NUM_SIMULATIONS 0, List.replicate NUM_SIMULATIONS 0), 0) :=
  salah_zero_games [1, 2] [3] (fun n => n) 0

/-- C6 (amended): an empty source series makes `rng.choice` raise an
unclassified `ValueError` which propagates out of the sampler; the code
defines no discriminated EmptySourceArray error. -/
theorem C6_empty_source_raises_valueerror (assists : List ℚ) (G : Nat)
    (stream : Nat → Nat) (pos : Nat) (hG : 1 ≤ G) :
    monte_carlo_simulation_salah [] assists G stream pos =
      .error (.valueError "a cannot be empty unless no samples are taken") := by
  have hSG : NUM_SIMULATIONS * G ≠ 0 := by
    have hG0 : G ≠ 0 := Nat.one_le_iff_ne_zero.mp hG
    simp [NUM_SIMULATIONS, hG0]
  unfold monte_carlo_simulation_salah
  rw [np_choice_sum_empty _ _ _ _ hSG]

/-- C6 (witness): the amended theorem applied at G = 1. -/
theorem C6_witness :
    1 ≤ 1 ∧
      monte_carlo_simulation_salah [] [5] 1 (fun n => n) 0 =
        .error (.valueError "a cannot be empty unless no samples are taken") :=
  ⟨le_refl 1, C6_empty_source_raises_valueerror [5] 1 (fun n => n) 0 (le_refl 1)⟩

/-- C6 (counterexample): at the concrete input (empty goals series, G = 1)
the operation does not fail with a discriminated EmptySourceArray error; the
unclassified NumPy ValueError escapes instead. -/
theorem C6_counterexample :
    monte_carlo_simulation_salah [] [1] 1 (fun n => n) 0 =
      .error (.valueError "a cannot be empty unless no samples are taken") := by
  have hSG : NUM_SIMULATIONS * 1 ≠ 0 := by simp [NUM_SIMULATIONS]
  unfold monte_carlo_simulation_salah
  rw [np_choice_sum_empty _ _ _ _ hSG]

/-- C8 (amended): on an empty totals array the reduction raises an uncaught
`IndexError` from `np.percentile` (after `mean` produces a NaN with a
warning); there is no EmptyInput "no data" result anywhere in the code. -/
theorem C8_empty_input_raises_indexerror (color title : String) :
    create_histogram [] color title =
      .error (.indexError "cannot do a non-empty take from an empty axes") := rfl

/-- C8 (counterexample): at the concrete empty input the claim fails — the
result is a propagated numeric fault, not a well-defined "no data" value. -/
theorem C8_counterexample :
    create_histogram [] "#C8102E" "Goals" =
      .error (.indexError "cannot do a non-empty take from an empty axes") := rfl

/-- C9: the sampling operations never mutate the module-level source arrays.
Viewing each simulation as a transition on the module globals, the source
arrays of the post-state are element-for-element the pre-state arrays (only
the generator cursor changes), whether the call succeeds or raises. -/
theorem C9_sources_not_mutated (G1 G2 : Nat) (s1 s2 : Nat → Nat)
    (st : SalahState) (lst : LebronState) :
    ((monte_carlo_salah_run G1 s1 st).map fun r => (r.2.goals, r.2.assists)) =
        ((monte_carlo_salah_run G1 s1 st).map fun _ => (st.goals, st.assists)) ∧
      ((monte_carlo_lebron_run G2 s2 lst).map fun r => (r.2.PTS, r.2.AST, r.2.REB)) =
        ((monte_carlo_lebron_run G2 s2 lst).map fun _ => (lst.PTS, lst.AST, lst.REB)) := by
  constructor
  · unfold monte_carlo_salah_run
    cases monte_carlo_simulation_salah st.goals st.assists G1 s1 st.rng_pos <;> rfl
  · unfold monte_carlo_lebron_run
    cases monte_carlo_simulation_lebron lst.PTS lst.AST lst.REB G2 s2 lst.rng_pos <;> rfl

/-- C10: whenever a simulation call returns arrays, each returned array has
length exactly `NUM_SIMULATIONS = 10000`; the simulation count is the fixed
module constant, not a parameter of either public sampling function. -/
theorem C10_output_length_is_fixed_constant (goals assists PTS AST REB : List ℚ)
    (G1 G2 : Nat) (s1 s2 : Nat → Nat) (p1 p2 : Nat) :
    NUM_SIMULATIONS = 10000 ∧
    ((monte_carlo_simulation_salah goals assists G1 s1 p1).map
        fun r => (r.1.1.length, r.1.2.length)) =
      ((monte_carlo_simulation_salah goals assists G1 s1 p1).map
        fun _ => (NUM_SIMULATIONS, NUM_SIMULATIONS)) ∧
    ((monte_carlo_simulation_lebron PTS AST REB G2 s2 p2).map
        fun r => (r.1.1.length, r.1.2.1.length, r.1.2.2.length)) =
      ((monte_carlo_simulation_lebron PTS AST REB G2 s2 p2).map
        fun _ => (NUM_SIMULATIONS, NUM_SIMULATIONS, NUM_SIMULATIONS)) := by
  refine ⟨rfl, ?_, ?_⟩
  · rcases salah_cases goals assists G1 s1 p1 with h | h <;>
      rw [h] <;> simp [Except.map, statSim_length]
  · rcases lebron_cases PTS AST REB G2 s2 p2 with h | h <;>
      rw [h] <;> simp [Except.map, statSim_length]

/-- C1 (amended): each statistic is sampled with its own independently drawn
S×G index matrix.  The goals draw uses the index matrix at cursor `pos` and
the assists draw uses the distinct matrix at cursor
`pos + NUM_SIMULATIONS * G` (the next block of the generator's stream); no
index matrix is shared across statistics. -/
theorem C1_independent_index_matrices (goals assists : List ℚ) (G : Nat)
    (stream : Nat → Nat) (pos : Nat) (hg : goals ≠ []) (ha : assists ≠ []) :
    monte_carlo_simulation_salah goals assists G stream pos =
      .ok ((matrixSums goals
              (choiceIndexMatrix stream pos goals.length NUM_SIMULATIONS G),
            matrixSums assists
              (choiceIndexMatrix stream (pos + NUM_SIMULATIONS * G) assists.length
                NUM_SIMULATIONS G)),
           pos + NUM_SIMULATIONS * G + NUM_SIMULATIONS * G) :=
  monte_carlo_salah_eq goals assists G stream pos hg ha

/-- C1 (witness): the amended theorem applied at a concrete input. -/
theorem C1_witness :
    ([1] : List ℚ) ≠ [] ∧ ([2] : List ℚ) ≠ [] ∧
      monte_carlo_simulation_salah [1] [2] 1 (fun n => n) 0 =
        .ok ((matrixSums [1]
                (choiceIndexMatrix (fun n => n) 0 [(1 : ℚ)].length NUM_SIMULATIONS 1),
              matrixSums [2]
                (choiceIndexMatrix (fun n => n) (0 + NUM_SIMULATIONS * 1) [(2 : ℚ)].length
                  NUM_SIMULATIONS 1)),
             0 + NUM_SIMULATIONS * 1 + NUM_SIMULATIONS * 1) :=
  ⟨by simp, by simp,
    C1_independent_index_matrices [1] [2] 1 (fun n => n) 0 (by simp) (by simp)⟩

/-- C1 (counterexample): with identical goals and assists series, if both
statistics reused the same index matrix their simulated arrays would be
identical cell for cell; instead the (simulation 0, game 0) cell of the
goals array comes from historical index 0 (value 10) while the same cell of
the assists array comes from historical index 1 (value 20). -/
theorem C1_counterexample :
    (monte_carlo_simulation_salah [10, 20, 30] [10, 20, 30] 1 (fun n => n) 0).toOption.map
        (fun r => (r.1.1.getD 0 0, r.1.2.getD 0 0)) = some (10, 20) ∧ (10 : ℚ) ≠ 20 := by
  constructor
  · rw [monte_carlo_salah_eq _ _ _ _ _ (by simp) (by simp)]
    simp only [Except.toOption, Option.map_some']
    rw [statSim_getD _ _ _ _ (by simp [NUM_SIMULATIONS]),
      statSim_getD _ _ _ _ (by simp [NUM_SIMULATIONS])]
    norm_num [drawRow, List.range_succ, NUM_SIMULATIONS]
  · norm_num

/-- C7 (amended): there is no result cache.  Each invocation re-invokes the
sampler; a second call with identical arguments starts from the advanced
generator cursor and produces an independent fresh draw (the next two stream
blocks), rather than reusing the first call's totals. -/
theorem C7_no_cache_sequential_fresh_draws (goals assists : List ℚ) (G : Nat)
    (stream : Nat → Nat) (pos : Nat) (hg : goals ≠ []) (ha : assists ≠ []) :
    ((monte_carlo_simulation_salah goals assists G stream pos).bind fun r =>
        (monte_carlo_simulation_salah goals assists G stream r.2).map fun r2 =>
          (r.1, r2.1)) =
      .ok ((statSim goals G stream pos,
            statSim assists G stream (pos + NUM_SIMULATIONS * G)),
           (statSim goals G stream (pos + NUM_SIMULATIONS * G + NUM_SIMULATIONS * G),
            statSim assists G stream
              (pos + NUM_SIMULATIONS * G + NUM_SIMULATIONS * G + NUM_SIMULATIONS * G))) := by
  rw [monte_carlo_salah_eq _ _ _ _ _ hg ha]
  simp only [Except.bind]
  rw [monte_carlo_salah_eq _ _ _ _ _ hg ha]
  rfl

/-- C7 (witness): the amended theorem applied at a concrete input. -/
theorem C7_witness :
    ([1] : List ℚ) ≠ [] ∧ ([2] : List ℚ) ≠ [] ∧
      ((monte_carlo_simulation_salah [1] [2] 1 (fun n => n) 0).bind fun r =>
          (monte_carlo_simulation_salah [1] [2] 1 (fun n => n) r.2).map fun r2 =>
            (r.1, r2.1)) =
        .ok ((statSim [1] 1 (fun n => n) 0,
              statSim [2] 1 (fun n => n) (0 + NUM_SIMULATIONS * 1)),
             (statSim [1] 1 (fun n => n) (0 + NUM_SIMULATIONS * 1 + NUM_SIMULATIONS * 1),
              statSim [2] 1 (fun n => n)
                (0 + NUM_SIMULATIONS * 1 + NUM_SIMULATIONS * 1 + NUM_SIMULATIONS * 1))) :=
  ⟨by simp, by simp,
    C7_no_cache_sequential_fresh_draws [1] [2] 1 (fun n => n) 0 (by simp) (by simp)⟩

/-- C7 (counterexample): two sequential calls with identical arguments and no
intervening invalidation are not bit-identical: with the stream that draws
raw value 0 first and 1 afterwards, the first call's first goals total is 1
while the second call's first goals total is 2. -/
theorem C7_counterexample :
    ((monte_carlo_simulation_salah [1, 2] [5] 1 (fun n => if n = 0 then 0 else 1)
            0).toOption.bind
        fun r =>
          (monte_carlo_simulation_salah [1, 2] [5] 1 (fun n => if n = 0 then 0 else 1)
              r.2).toOption.map
            fun r2 => (r.1.1.getD 0 0, r2.1.1.getD 0 0)) = some (1, 2) ∧ (1 : ℚ) ≠ 2 := by
  constructor
  · rw [monte_carlo_salah_eq _ _ _ _ _ (by simp) (by simp)]
    simp only [Except.toOption, Option.some_bind]
    rw [monte_carlo_salah_eq _ _ _ _ _ (by simp) (by simp)]
    simp only [Except.toOption, Option.map_some']
    rw [statSim_getD _ _ _ _ (by simp [NUM_SIMULATIONS]),
      statSim_getD _ _ _ _ (by simp [NUM_SIMULATIONS])]
    norm_num [drawRow, List.range_succ, NUM_SIMULATIONS]
  · norm_num

/-- C2 (amended): each Salah array has one entry per simulation and each
entry is the sum of the G values drawn for that simulated season (a
cumulative total); each LeBron array's entries are that sum divided by G — a
per-game average, as the function's docstring states — not a cumulative
total. -/
theorem C2_totals_vs_averages (goals assists PTS AST REB : List ℚ) (G : Nat)
    (s1 s2 : Nat → Nat) (p1 p2 : Nat) (hg : goals ≠ []) (ha : assists ≠ [])
    (hp : PTS ≠ []) (hast : AST ≠ []) (hreb : REB ≠ []) :
    ((monte_carlo_simulation_salah goals assists G s1 p1).map fun r => r.1.1) =
        .ok ((List.range NUM_SIMULATIONS).map fun s =>
          (drawRow goals G s1 (p1 + s * G)).sum) ∧
      ((monte_carlo_simulation_salah goals assists G s1 p1).map fun r => r.1.2) =
        .ok ((List.range NUM_SIMULATIONS).map fun s =>
          (drawRow assists G s1 (p1 + NUM_SIMULATIONS * G + s * G)).sum) ∧
      ((monte_carlo_simulation_lebron PTS AST REB G s2 p2).map fun r => r.1.1) =
        .ok ((List.range NUM_SIMULATIONS).map fun s =>
          (drawRow PTS G s2 (p2 + s * G)).sum / (G : ℚ)) ∧
      ((monte_carlo_simulation_lebron PTS AST REB G s2 p2).map fun r => r.1.2.1) =
        .ok ((List.range NUM_SIMULATIONS).map fun s =>
          (drawRow AST G s2 (p2 + NUM_SIMULATIONS * G + s * G)).sum / (G : ℚ)) ∧
      ((monte_carlo_simulation_lebron PTS AST REB G s2 p2).map fun r => r.1.2.2) =
        .ok ((List.range NUM_SIMULATIONS).map fun s =>
          (drawRow REB G s2 (p2 + NUM_SIMULATIONS * G + NUM_SIMULATIONS * G + s * G)).sum /
            (G : ℚ)) := by
  rw [monte_carlo_salah_eq _ _ _ _ _ hg ha, monte_carlo_lebron_eq _ _ _ _ _ _ hp hast hreb]
  refine ⟨?_, ?_, ?_, ?_, ?_⟩ <;>
    simp [Except.map, statSim_eq_map, List.map_map, Function.comp]

/-- C2 (witness): the amended theorem applied at a concrete input. -/
theorem C2_witness :
    ([1] : List ℚ) ≠ [] ∧ ([2] : List ℚ) ≠ [] ∧ ([3] : List ℚ) ≠ [] ∧
      ([4] : List ℚ) ≠ [] ∧ ([5] : List ℚ) ≠ [] ∧
      ((monte_carlo_simulation_salah [1] [2] 1 (fun n => n) 0).map fun r => r.1.1) =
        .ok ((List.range NUM_SIMULATIONS).map fun s =>
          (drawRow [1] 1 (fun n => n) (0 + s * 1)).sum) :=
  ⟨by simp, by simp, by simp, by simp, by simp,
    (C2_totals_vs_averages [1] [2] [3] [4] [5] 1 (fun n => n) (fun n => n) 0 0
        (by simp) (by simp) (by simp) (by simp) (by simp)).1⟩

/-- C2 (counterexample): for the LeBron sampler with source series [4] and
G = 2 every drawn value is 4, so the sum of the two values drawn for any
simulated season is 8; yet the first returned entry is 4, the per-game
average, not the cumulative total 8. -/
theorem C2_counterexample :
    (monte_carlo_simulation_lebron [4] [4] [4] 2 (fun n => n) 0).toOption.map
        (fun r => r.1.1.getD 0 0) = some 4 ∧
      (drawRow [(4 : ℚ)] 2 (fun n => n) 0).sum = 8 ∧ (4 : ℚ) ≠ 8 := by
  refine ⟨?_, by norm_num [drawRow, List.range_succ], by norm_num⟩
  rw [monte_carlo_lebron_eq _ _ _ _ _ _ (by simp) (by simp) (by simp)]
  simp only [Except.toOption, Option.map_some']
  rw [statSim_eq_map, List.map_map]
  rw [getD_map_range _ _ (by simp [NUM_SIMULATIONS])]
  simp [Function.comp, drawRow]
  norm_num [List.range_succ]

lemma foldl_min_le_init (l : List ℚ) (a : ℚ) : l.foldl min a ≤ a := by
  induction l generalizing a with
  | nil => exact le_refl a
  | cons b l ih => exact le_trans (ih (min a b)) (min_le_left a b)

lemma foldl_min_le_mem {l : List ℚ} {x : ℚ} (hx : x ∈ l) (a : ℚ) : l.foldl min a ≤ x := by
  induction l generalizing a with
  | nil => cases hx
  | cons b l ih =>
    rcases List.mem_cons.mp hx with h | h
    · subst h
      exact le_trans (foldl_min_le_init l (min a x)) (min_le_right a x)
    · exact ih h (min a b)

lemma listMin_le {l : List ℚ} {x : ℚ} (hx : x ∈ l) : listMin l ≤ x := by
  cases l with
  | nil => cases hx
  | cons a l =>
    rcases List.mem_cons.mp hx with h | h
    · subst h
      exact foldl_min_le_init l x
    · exact foldl_min_le_mem h a

lemma le_foldl_max_init (l : List ℚ) (a : ℚ) : a ≤ l.foldl max a := by
  induction l generalizing a with
  | nil => exact le_refl a
  | cons b l ih => exact le_trans (le_max_left a b) (ih (max a b))

lemma le_foldl_max_mem {l : List ℚ} {x : ℚ} (hx : x ∈ l) (a : ℚ) : x ≤ l.foldl max a := by
  induction l generalizing a with
  | nil => cases hx
  | cons b l ih =>
    rcases List.mem_cons.mp hx with h | h
    · subst h
      exact le_trans (le_max_right a x) (le_foldl_max_init l (max a x))
    · exact ih h (max a b)

lemma le_listMax {l : List ℚ} {x : ℚ} (hx : x ∈ l) : x ≤ listMax l := by
  cases l with
  | nil => cases hx
  | cons a l =>
    rcases List.mem_cons.mp hx with h | h
    · subst h
      exact le_foldl_max_init l x
    · exact le_foldl_max_mem h a

lemma length_mul_le_sum (l : List ℚ) (m : ℚ) (h : ∀ x ∈ l, m ≤ x) :
    (l.length : ℚ) * m ≤ l.sum := by
  induction l with
  | nil => simp
  | cons a l ih =>
    have ha := h a (List.mem_cons_self a l)
    have ih' := ih fun x hx => h x (List.mem_cons_of_mem a hx)
    simp only [List.length_cons, List.sum_cons]
    push_cast
    linarith

lemma sum_le_length_mul (l : List ℚ) (M : ℚ) (h : ∀ x ∈ l, x ≤ M) :
    l.sum ≤ (l.length : ℚ) * M := by
  induction l with
  | nil => simp
  | cons a l ih =>
    have ha := h a (List.mem_cons_self a l)
    have ih' := ih fun x hx => h x (List.mem_cons_of_mem a hx)
    simp only [List.length_cons, List.sum_cons]
    push_cast
    linarith

lemma mem_drawRow_mem_src {src : List ℚ} {G : Nat} {stream : Nat → Nat} {start : Nat}
    (hsrc : src ≠ []) {v : ℚ} (hv : v ∈ drawRow src G stream start) : v ∈ src := by
  unfold drawRow at hv
  rcases List.mem_map.mp hv with ⟨g, _, rfl⟩
  have hlen : 0 < src.length := List.length_pos.mpr hsrc
  have hlt : stream (start + g) % src.length < src.length := Nat.mod_lt _ hlen
  rw [List.getD_eq_getElem?_getD, List.getElem?_eq_getElem hlt, Option.getD_some]
  exact List.getElem_mem hlt

lemma drawRow_length (src : List ℚ) (G : Nat) (stream : Nat → Nat) (start : Nat) :
    (drawRow src G stream start).length = G := by
  simp [drawRow]

lemma drawRow_sum_bounds (src : List ℚ) (G : Nat) (stream : Nat → Nat) (start : Nat)
    (hsrc : src ≠ []) :
    (G : ℚ) * listMin src ≤ (drawRow src G stream start).sum ∧
      (drawRow src G stream start).sum ≤ (G : ℚ) * listMax src := by
  constructor
  · have := length_mul_le_sum (drawRow src G stream start) (listMin src)
      fun x hx => listMin_le (mem_drawRow_mem_src hsrc hx)
    rwa [drawRow_length] at this
  · have := sum_le_length_mul (drawRow src G stream start) (listMax src)
      fun x hx => le_listMax (mem_drawRow_mem_src hsrc hx)
    rwa [drawRow_length] at this

lemma statSim_mem_bounds (src : List ℚ) (G : Nat) (stream : Nat → Nat) (pos : Nat)
    {x : ℚ} (hx : x ∈ statSim src G stream pos) :
    (G : ℚ) * listMin src ≤ x ∧ x ≤ (G : ℚ) * listMax src := by
  have hx' : ∃ s, s < NUM_SIMULATIONS ∧ (drawRow src G stream (pos + s * G)).sum = x := by
    simpa [statSim_eq_map] using hx
  by_cases hsrc : src = []
  · subst hsrc
    rcases hx' with ⟨s, _, rfl⟩
    have hrow : drawRow [] G stream (pos + s * G) = List.replicate G 0 := by
      simp [drawRow, List.map_const']
    rw [hrow]
    simp [List.sum_replicate, listMin, listMax]
  · rcases hx' with ⟨s, _, rfl⟩
    exact drawRow_sum_bounds src G stream (pos + s * G) hsrc

/-- C3: every element of each simulated-totals array the Salah sampler
returns lies within the closed interval from G times the minimum to G times
the maximum of the corresponding historical series. -/
theorem C3_totals_within_min_max_bounds (goals assists : List ℚ) (G : Nat)
    (stream : Nat → Nat) (pos : Nat) (gsim asim : List ℚ) (pos' : Nat)
    (h : monte_carlo_simulation_salah goals assists G stream pos =
      .ok ((gsim, asim), pos')) :
    (∀ x ∈ gsim, (G : ℚ) * listMin goals ≤ x ∧ x ≤ (G : ℚ) * listMax goals) ∧
      (∀ x ∈ asim, (G : ℚ) * listMin assists ≤ x ∧ x ≤ (G : ℚ) * listMax assists) := by
  rcases salah_cases goals assists G stream pos with hc | hc
  · rw [h] at hc
    cases hc
  · rw [h] at hc
    simp only [Except.ok.injEq, Prod.mk.injEq] at hc
    obtain ⟨⟨h1, h2⟩, -⟩ := hc
    constructor
    · intro x hx
      rw [h1] at hx
      exact statSim_mem_bounds _ _ _ _ hx
    · intro x hx
      rw [h2] at hx
      exact statSim_mem_bounds _ _ _ _ hx

/-- C3 (witness): the theorem applied to a concrete successful run. -/
theorem C3_witness :
    monte_carlo_simulation_salah [2] [3] 1 (fun n => n) 0 =
        .ok ((statSim [2] 1 (fun n => n) 0,
              statSim [3] 1 (fun n => n) (0 + NUM_SIMULATIONS * 1)),
             0 + NUM_SIMULATIONS * 1 + NUM_SIMULATIONS * 1) ∧
      ((∀ x ∈ statSim [(2 : ℚ)] 1 (fun n => n) 0,
          ((1 : Nat) : ℚ) * listMin [2] ≤ x ∧ x ≤ ((1 : Nat) : ℚ) * listMax [2]) ∧
        (∀ x ∈ statSim [(3 : ℚ)] 1 (fun n => n) (0 + NUM_SIMULATIONS * 1),
          ((1 : Nat) : ℚ) * listMin [3] ≤ x ∧ x ≤ ((1 : Nat) : ℚ) * listMax [3])) :=
  ⟨monte_carlo_salah_eq [2] [3] 1 (fun n => n) 0 (by simp) (by simp),
    C3_totals_within_min_max_bounds [2] [3] 1 (fun n => n) 0 _ _ _
      (monte_carlo_salah_eq [2] [3] 1 (fun n => n) 0 (by simp) (by simp))⟩

lemma sorted_getD_mono {s : List ℚ} (hs : s.Sorted (· ≤ ·)) {i j : Nat} (hij : i ≤ j)
    (hj : j < s.length) : s.getD i 0 ≤ s.getD j 0 := by
  have hi : i < s.length := lt_of_le_of_lt hij hj
  rw [List.getD_eq_getElem?_getD, List.getElem?_eq_getElem hi, Option.getD_some,
    List.getD_eq_getElem?_getD, List.getElem?_eq_getElem hj, Option.getD_some]
  rcases Nat.lt_or_ge i j with hlt | hge
  · have := hs.rel_get_of_lt (a := ⟨i, hi⟩) (b := ⟨j, hj⟩) (Fin.mk_lt_mk.mpr hlt)
    simpa [List.get_eq_getElem] using this
  · have hij' : i = j := le_antisymm hij hge
    subst hij'
    exact le_refl _

lemma floor_toNat_le {h : ℚ} (h0 : 0 ≤ h) : ((Int.toNat ⌊h⌋ : Nat) : ℚ) ≤ h := by
  have hfl : (0 : ℤ) ≤ ⌊h⌋ := Int.floor_nonneg.mpr h0
  have hc : ((Int.toNat ⌊h⌋ : Nat) : ℚ) = ((⌊h⌋ : ℤ) : ℚ) := by
    exact_mod_cast congrArg (fun z : ℤ => (z : ℚ)) (Int.toNat_of_nonneg hfl)
  rw [hc]
  exact Int.floor_le h

lemma lt_floor_toNat_add_one {h : ℚ} (h0 : 0 ≤ h) :
    h < ((Int.toNat ⌊h⌋ : Nat) : ℚ) + 1 := by
  have hfl : (0 : ℤ) ≤ ⌊h⌋ := Int.floor_nonneg.mpr h0
  have hc : ((Int.toNat ⌊h⌋ : Nat) : ℚ) = ((⌊h⌋ : ℤ) : ℚ) := by
    exact_mod_cast congrArg (fun z : ℤ => (z : ℚ)) (Int.toNat_of_nonneg hfl)
  rw [hc]
  exact Int.lt_floor_add_one h

lemma interpolate_mono {s : List ℚ} (hs : s.Sorted (· ≤ ·)) {n : Nat}
    (hlen : s.length = n) (hn : 1 ≤ n) {h1 h2 : ℚ} (h10 : 0 ≤ h1) (h12 : h1 ≤ h2)
    (h2ub : h2 ≤ (n : ℚ) - 1) : interpolate s n h1 ≤ interpolate s n h2 := by
  have h20 : 0 ≤ h2 := le_trans h10 h12
  have hfloor2 : ⌊h2⌋ ≤ (n : ℤ) - 1 := by
    have hcast : ((n : ℚ) - 1) = (((n : ℤ) - 1 : ℤ) : ℚ) := by push_cast; ring
    calc ⌊h2⌋ ≤ ⌊((n : ℚ) - 1)⌋ := Int.floor_mono h2ub
      _ = (n : ℤ) - 1 := by rw [hcast, Int.floor_intCast]
  have hi2ub : Int.toNat ⌊h2⌋ ≤ n - 1 := by omega
  have hi12 : Int.toNat ⌊h1⌋ ≤ Int.toNat ⌊h2⌋ := by
    have := Int.floor_mono h12
    omega
  have hi1ub : Int.toNat ⌊h1⌋ ≤ n - 1 := le_trans hi12 hi2ub
  have hf10 : 0 ≤ h1 - ((Int.toNat ⌊h1⌋ : Nat) : ℚ) := by
    have := floor_toNat_le h10
    linarith
  have hf11 : h1 - ((Int.toNat ⌊h1⌋ : Nat) : ℚ) < 1 := by
    have := lt_floor_toNat_add_one h10
    linarith
  have hf20 : 0 ≤ h2 - ((Int.toNat ⌊h2⌋ : Nat) : ℚ) := by
    have := floor_toNat_le h20
    linarith
  have hf21 : h2 - ((Int.toNat ⌊h2⌋ : Nat) : ℚ) < 1 := by
    have := lt_floor_toNat_add_one h20
    linarith
  have hmin1lt : min (Int.toNat ⌊h1⌋ + 1) (n - 1) < s.length := by
    rw [hlen]
    have : min (Int.toNat ⌊h1⌋ + 1) (n - 1) ≤ n - 1 := Nat.min_le_right _ _
    omega
  have hmin2lt : min (Int.toNat ⌊h2⌋ + 1) (n - 1) < s.length := by
    rw [hlen]
    have : min (Int.toNat ⌊h2⌋ + 1) (n - 1) ≤ n - 1 := Nat.min_le_right _ _
    omega
  have hAB1 : s.getD (Int.toNat ⌊h1⌋) 0 ≤ s.getD (min (Int.toNat ⌊h1⌋ + 1) (n - 1)) 0 :=
    sorted_getD_mono hs (Nat.le_min.mpr ⟨Nat.le_succ _, hi1ub⟩) hmin1lt
  have hAB2 : s.getD (Int.toNat ⌊h2⌋) 0 ≤ s.getD (min (Int.toNat ⌊h2⌋ + 1) (n - 1)) 0 :=
    sorted_getD_mono hs (Nat.le_min.mpr ⟨Nat.le_succ _, hi2ub⟩) hmin2lt
  rcases Nat.lt_or_ge (Int.toNat ⌊h1⌋) (Int.toNat ⌊h2⌋) with hlt | hge
  · -- the two virtual indices fall in different cells: chain through the order statistics
    have hchain : s.getD (min (Int.toNat ⌊h1⌋ + 1) (n - 1)) 0 ≤ s.getD (Int.toNat ⌊h2⌋) 0 := by
      refine sorted_getD_mono hs ?_ (by omega)
      exact le_trans (Nat.min_le_left _ _) hlt
    unfold interpolate
    nlinarith [hAB1, hAB2, hchain, hf10, hf11, hf20, hf21]
  · -- same cell: the index and hence both order statistics agree
    have heq : Int.toNat ⌊h1⌋ = Int.toNat ⌊h2⌋ := le_antisymm hi12 hge
    unfold interpolate
    rw [heq]
    nlinarith [hAB2, sub_nonneg.mpr h12]

lemma sortData_sorted (data : List ℚ) : (sortData data).Sorted (· ≤ ·) :=
  List.sorted_insertionSort _ data

lemma sortData_length (data : List ℚ) : (sortData data).length = data.length :=
  (List.perm_insertionSort _ data).length_eq

lemma np_percentile_mono (data : List ℚ) (hd : data ≠ []) {q1 q2 : ℚ}
    (h0 : 0 ≤ q1) (h12 : q1 ≤ q2) (h100 : q2 ≤ 100) :
    np_percentile data q1 ≤ np_percentile data q2 := by
  have hn : 0 < data.length := List.length_pos.mpr hd
  have h1n : (1 : ℚ) ≤ (data.length : ℚ) := by exact_mod_cast hn
  have hn1 : 0 ≤ (data.length : ℚ) - 1 := by linarith
  unfold np_percentile
  refine interpolate_mono (sortData_sorted data) (sortData_length data) hn ?_ ?_ ?_
  · exact mul_nonneg (div_nonneg h0 (by norm_num)) hn1
  · exact mul_le_mul_of_nonneg_right ((div_le_div_iff_of_pos_right (by norm_num)).mpr h12) hn1
  · have hq1 : q2 / 100 ≤ 1 := (div_le_one (by norm_num)).mpr h100
    nlinarith

lemma np_mean_bounds (data : List ℚ) (hd : data ≠ []) :
    listMin data ≤ np_mean data ∧ np_mean data ≤ listMax data := by
  have hn : 0 < data.length := List.length_pos.mpr hd
  have hnq : 0 < (data.length : ℚ) := by exact_mod_cast hn
  have hlow := length_mul_le_sum data (listMin data) fun x hx => listMin_le hx
  have hhigh := sum_le_length_mul data (listMax data) fun x hx => le_listMax hx
  unfold np_mean
  constructor
  · rw [le_div_iff₀ hnq]
    rw [mul_comm] at hlow
    exact hlow
  · rw [div_le_iff₀ hnq]
    rw [mul_comm] at hhigh
    exact hhigh

/-- C4 (amended): for every figure the summarization successfully returns,
the two percentiles are ordered (p5 ≤ p95) and the mean lies between the
minimum and maximum of the summarized array; the claimed
p_low ≤ mean ≤ p_high is not guaranteed in general. -/
theorem C4_summary_bounds (data : List ℚ) (color title : String) (fig : Histogram)
    (h : create_histogram data color title = .ok fig) :
    fig.p5 ≤ fig.p95 ∧ listMin data ≤ fig.mean ∧ fig.mean ≤ listMax data := by
  by_cases hd : data = []
  · rw [hd] at h
    simp [create_histogram] at h
  · unfold create_histogram at h
    rw [if_neg hd] at h
    simp only [Except.ok.injEq] at h
    rw [← h]
    exact ⟨np_percentile_mono data hd (by norm_num) (by norm_num) (by norm_num),
      (np_mean_bounds data hd).1, (np_mean_bounds data hd).2⟩

/-- C4 (witness): the amended theorem applied to a concrete figure. -/
theorem C4_witness :
    create_histogram [(0 : ℚ)] "c" "t" =
        .ok ⟨[0], "c", "t", np_mean [0], np_percentile [0] 5, np_percentile [0] 95⟩ ∧
      (np_percentile [(0 : ℚ)] 5 ≤ np_percentile [(0 : ℚ)] 95 ∧
        listMin [(0 : ℚ)] ≤ np_mean [(0 : ℚ)] ∧ np_mean [(0 : ℚ)] ≤ listMax [(0 : ℚ)]) := by
  have h : create_histogram [(0 : ℚ)] "c" "t" =
      .ok ⟨[0], "c", "t", np_mean [0], np_percentile [0] 5, np_percentile [0] 95⟩ := by
    unfold create_histogram
    rw [if_neg (by simp)]
  exact ⟨h, C4_summary_bounds [0] "c" "t" _ h⟩

lemma create_histogram_ok (data : List ℚ) (color title : String) (hd : data ≠ []) :
    create_histogram data color title =
      .ok ⟨data, color, title, np_mean data, np_percentile data 5, np_percentile data 95⟩ := by
  unfold create_histogram
  rw [if_neg hd]

lemma update_salah_eq (goals assists : List ℚ) (G : Nat) (stream : Nat → Nat)
    (pos : Nat) (hg : goals ≠ []) (ha : assists ≠ []) :
    update_salah_output goals assists G stream pos =
      .ok ((⟨G, np_mean (statSim goals G stream pos),
             np_percentile (statSim goals G stream pos) 5,
             np_percentile (statSim goals G stream pos) 95⟩,
            ⟨statSim goals G stream pos, "#C8102E", "Goals",
             np_mean (statSim goals G stream pos),
             np_percentile (statSim goals G stream pos) 5,
             np_percentile (statSim goals G stream pos) 95⟩,
            ⟨statSim assists G stream (pos + NUM_SIMULATIONS * G), "#00B2A9", "Assists",
             np_mean (statSim assists G stream (pos + NUM_SIMULATIONS * G)),
             np_percentile (statSim assists G stream (pos + NUM_SIMULATIONS * G)) 5,
             np_percentile (statSim assists G stream (pos + NUM_SIMULATIONS * G)) 95⟩),
           pos + NUM_SIMULATIONS * G + NUM_SIMULATIONS * G) := by
  unfold update_salah_output
  simp only [monte_carlo_salah_eq _ _ _ _ _ hg ha,
    create_histogram_ok _ _ _ (statSim_ne_nil _ _ _ _)]

/-- The raw-draw stream of the C4 counterexample: index 0 for the first 9600
simulated seasons and index 1 afterwards. -/
def cexStream : Nat → Nat := fun n => if n < 9600 then 0 else 1

/-- The simulated goals array of the C4 counterexample run: 9600 season
totals of 0 followed by 400 season totals of 21 (series [0, 21], G = 1). -/
def cexData : List ℚ := List.replicate 9600 0 ++ List.replicate 400 21

lemma cexData_length : cexData.length = 10000 := by
  unfold cexData
  rw [List.length_append, List.length_replicate, List.length_replicate]

lemma cex_row_sum (j : Nat) :
    (drawRow [0, 21] 1 cexStream j).sum = if j < 9600 then 0 else 21 := by
  by_cases hc : j < 9600 <;> simp [drawRow, List.range_succ, cexStream, hc]

lemma cexData_getElem {i : Nat} (h : i < cexData.length) :
    cexData[i] = if i < 9600 then 0 else 21 := by
  by_cases hc : i < 9600
  · rw [if_pos hc]
    unfold cexData
    rw [List.getElem_append_left (by rw [List.length_replicate]; exact hc)]
    rw [List.getElem_replicate]
  · rw [if_neg hc]
    unfold cexData
    rw [List.getElem_append_right (by rw [List.length_replicate]; exact Nat.le_of_not_lt hc)]
    rw [List.getElem_replicate]

lemma cexData_getD (i : Nat) (hi : i < 10000) :
    cexData.getD i 0 = if i < 9600 then 0 else 21 := by
  have h : i < cexData.length := by
    rw [cexData_length]
    exact hi
  rw [List.getD_eq_getElem?_getD, List.getElem?_eq_getElem h, Option.getD_some]
  exact cexData_getElem h

lemma cex_statSim_eq : statSim [0, 21] 1 cexStream 0 = cexData := by
  rw [statSim_eq_map]
  apply List.ext_getElem
  · rw [List.length_map, List.length_range, cexData_length]
    rfl
  · intro i h1 h2
    rw [List.getElem_map, List.getElem_range]
    rw [cexData_getElem h2]
    have harg : 0 + i * 1 = i := by omega
    rw [harg, cex_row_sum i]

lemma cexData_sorted : cexData.Sorted (· ≤ ·) := by
  refine List.pairwise_append.mpr ⟨?_, ?_, ?_⟩
  · exact List.pairwise_replicate.mpr (Or.inr (le_refl 0))
  · exact List.pairwise_replicate.mpr (Or.inr (le_refl 21))
  · intro a ha b hb
    rw [List.eq_of_mem_replicate ha, List.eq_of_mem_replicate hb]
    norm_num

lemma cex_sortData : sortData cexData = cexData :=
  List.Sorted.insertionSort_eq cexData_sorted

lemma cex_mean : np_mean cexData = 21 / 25 := by
  unfold np_mean cexData
  rw [List.sum_append, List.length_append, List.sum_replicate, List.sum_replicate,
    List.length_replicate, List.length_replicate]
  simp only [nsmul_eq_mul]
  norm_num

lemma cex_p95 : np_percentile cexData 95 = 0 := by
  unfold np_percentile
  rw [cex_sortData, cexData_length]
  have hH : (95 : ℚ) / 100 * (((10000 : Nat) : ℚ) - 1) = 949905 / 100 := by norm_num
  rw [hH]
  have hfl : ⌊(949905 / 100 : ℚ)⌋ = 9499 := by
    rw [Int.floor_eq_iff]
    norm_num
  unfold interpolate
  rw [hfl]
  have htn : Int.toNat (9499 : ℤ) = 9499 := rfl
  rw [htn]
  have hmin : min (9499 + 1) (10000 - 1) = 9500 := by norm_num
  rw [hmin, cexData_getD 9499 (by norm_num), cexData_getD 9500 (by norm_num)]
  norm_num

/-- C4 (counterexample): an end-to-end run of the Salah callback on the
series goals = [0, 21], assists = [0] with G = 1 and the stream that draws
index 1 in exactly the last 400 of the 10000 simulations.  The returned
summary has goals mean 21/25 but 95th percentile 0, so
p_low ≤ mean ≤ p_high fails (the mean exceeds the high percentile). -/
theorem C4_counterexample :
    (update_salah_output [0, 21] [0] 1 cexStream 0).toOption.map
        (fun r => (r.1.1.goals_mean, r.1.1.goals_95th)) = some (21 / 25, 0) ∧
      ¬((21 : ℚ) / 25 ≤ 0) := by
  constructor
  · rw [update_salah_eq [0, 21] [0] 1 cexStream 0 (by simp) (by simp)]
    simp only [Except.toOption, Option.map_some']
    rw [cex_statSim_eq, cex_mean, cex_p95]
  · norm_num
